import Mathlib

/-!
Verification of the BodyBae.ai fitness-backend repository.

The repository is a collection of near-duplicate Flask backends.  The claims
concern the pure metric calculators (BMI, BMR, calorie targets), the goal
progress tracker, the in-memory conversation store, the RAG similarity
threshold gate and the keyword-matched fallback responders.  Each Python
function relevant to a claim is embedded below as a computable Lean
definition over exact rational arithmetic: Python floats are modelled by ℚ,
and every concrete input used in a witness or counterexample below is
exactly representable in binary floating point, so the rational model and
the float computation agree on those inputs.  Python dictionaries keyed by
user id are modelled as association lists, and calls into external
services (the OpenAI completion call, the sentence embedding model) are
modelled as explicit `Except`-valued parameters, matching the spec, which
treats them as black boxes that "may raise".
-/

/-- Python `str.lower` (ASCII case folding, which is all these sources need),
modelled directly on the character list underlying the string. -/
def pyLower (s : String) : String := ⟨s.data.map Char.toLower⟩

/-- Helper for the Python `in` substring test: does `hay` start with `needle`? -/
def charListStarts (hay needle : List Char) : Bool :=
  match hay, needle with
  | _, [] => true
  | [], _ :: _ => false
  | h :: hs, n :: ns => (h == n) && charListStarts hs ns

/-- Helper for the Python `in` substring test: does `hay` contain `needle`
as a contiguous run? -/
def charListHas (hay needle : List Char) : Bool :=
  match hay with
  | [] => needle.isEmpty
  | _ :: t => charListStarts hay needle || charListHas t needle

/-- Python `needle in hay` on strings. -/
def strContains (hay needle : String) : Bool := charListHas hay.data needle.data

/-- Python `any(word in s for word in words)`, the keyword test used by all
the fallback responders. -/
def containsAny (hay : String) (needles : List String) : Bool :=
  needles.any (fun w => strContains hay w)

/-- Python `s[:n]` on strings. -/
def strTake (s : String) (n : ℕ) : String := ⟨s.data.take n⟩

/-- Python `s.strip()`: remove leading and trailing whitespace. -/
def pyStrip (s : String) : String :=
  ⟨((s.data.dropWhile Char.isWhitespace).reverse.dropWhile Char.isWhitespace).reverse⟩

/-- Python `round(x)` on a real value: round half to even, returning an
integer.  (CPython rounds the decimal value of the float half-to-even; on
the exactly representable inputs used below this is the same function.) -/
def pyRoundHalfEven (q : ℚ) : ℤ :=
  if q - ⌊q⌋ < 1/2 then ⌊q⌋
  else if 1/2 < q - ⌊q⌋ then ⌊q⌋ + 1
  else if ⌊q⌋ % 2 = 0 then ⌊q⌋ else ⌊q⌋ + 1

/-- Python `round(x, 1)`: round half to even at the first decimal place. -/
def pyRound1 (q : ℚ) : ℚ := (pyRoundHalfEven (10 * q) : ℚ) / 10

/-- Python `int(x)` on a float: truncate toward zero. -/
def pyInt (q : ℚ) : ℤ := if 0 ≤ q then ⌊q⌋ else ⌈q⌉

/-- A `{'role': ..., 'content': ..., 'timestamp': ...}` conversation-history
entry, as appended by both `bodybae_main.py` and `clean_main_app.py`. -/
structure ChatMsg where
  role : String
  content : String
  timestamp : String
  deriving Repr, DecidableEq

namespace BodybaeBackend
/- Embedding of `src/bodybae_backend.py`. -/

/-- Function `calculate_goal_calories` (bodybae_backend.py lines 21-52).
`tdee` is an `int` in the source (the stored TDEE is `int(bmr * mult)`).
Returns the `(target_calories, advice)` tuple. -/
def calculate_goal_calories (tdee : ℤ) (goal : String) : ℤ × String :=
  if goal = "Lose Weight" ∨ goal = "Lose Fat" then
    (tdee - 500,
     "To lose weight safely, aim for " ++ toString (tdee - 500) ++
       " calories daily. This creates a 500-calorie deficit for ~0.5kg weekly loss.")
  else if goal = "Gain Weight" then
    (tdee + 300,
     "To gain weight gradually, aim for " ++ toString (tdee + 300) ++
       " calories daily. This creates a 300-calorie surplus.")
  else if goal = "Gain Muscle" then
    (tdee + 250,
     "For lean muscle gain, aim for " ++ toString (tdee + 250) ++
       " calories daily. Focus on protein intake and progressive training.")
  else if goal = "Bulking" then
    (tdee + 500,
     "For bulking, aim for " ++ toString (tdee + 500) ++
       " calories daily. Ensure adequate protein (1.6-2.2g/kg body weight).")
  else if goal = "Toning" then
    (tdee - 250,
     "For toning, aim for " ++ toString (tdee - 250) ++
       " calories daily. Combine with strength training to preserve muscle.")
  else
    (tdee,
     "To maintain your weight, aim for " ++ toString tdee ++
       " calories daily. Focus on balanced nutrition.")

/-- Result of `calculate_bmi` (bodybae_backend.py lines 55-74): the rounded
BMI value, the category and the advice string. -/
structure BmiResult where
  bmi : ℚ
  category : String
  advice : String
  deriving Repr, DecidableEq

/-- Function `calculate_bmi` (bodybae_backend.py lines 55-74).  The category
is decided on the unrounded BMI; the returned value is `round(bmi, 1)`.
The source writes the middle guards as `18.5 <= bmi < 25` and
`25 <= bmi < 30`, kept here as explicit conjunctions. -/
def calculate_bmi (weight height : ℚ) : BmiResult :=
  let height_in_meters := height / 100
  let bmi := weight / height_in_meters ^ 2
  if bmi < 18.5 then
    { bmi := pyRound1 bmi, category := "Underweight",
      advice := "Focus on nutrient-dense foods and strength training" }
  else if 18.5 ≤ bmi ∧ bmi < 25 then
    { bmi := pyRound1 bmi, category := "Normal weight",
      advice := "Maintain your healthy lifestyle with balanced nutrition" }
  else if 25 ≤ bmi ∧ bmi < 30 then
    { bmi := pyRound1 bmi, category := "Overweight",
      advice := "Consider portion control and increasing physical activity" }
  else
    { bmi := pyRound1 bmi, category := "Obese",
      advice := "Consult a healthcare provider for personalized guidance" }

/-- The BMR computed inside the `/api/onboard` handler (bodybae_backend.py
lines 394-398).  The handler tests `sex == 'male'` by exact equality. -/
def onboard_bmr (weight height : ℚ) (age : ℤ) (sex : String) : ℚ :=
  if sex = "male" then
    10 * weight + 6.25 * height - 5 * age + 5
  else
    10 * weight + 6.25 * height - 5 * age - 161

/-- The slice of a `users[user_id]` record read and written by the
`/api/set_goal` handler. -/
structure StoredUser where
  tdee : Option ℤ
  goal : Option String
  target_calories : Option ℤ
  deriving Repr, DecidableEq

/-- The `users` dictionary, keyed by user id. -/
abbrev Users := List (String × StoredUser)

/-- The `user_tdee` lookup of the `/api/set_goal` handler
(bodybae_backend.py lines 447-450): `None` unless the id is a known key
and its record has a `tdee` entry. -/
def lookupTdee (users : Users) (user_id : Option String) : Option ℤ :=
  match user_id with
  | none => none
  | some uid =>
    match List.lookup uid users with
    | none => none
    | some u => u.tdee

/-- Python truthiness of the optional integer `user_tdee`: `None` and `0`
are falsy. -/
def pyTruthyInt : Option ℤ → Bool
  | none => false
  | some t => t != 0

/-- Reading a Python local variable: evaluating a name that was never
assigned raises `NameError`. -/
def readLocal (x : Option ℤ) : Except String ℤ :=
  match x with
  | some v => Except.ok v
  | none => Except.error "NameError: target_calories referenced before assignment"

/-- The `goal_advice` table and its `.get(goal, default)` lookup
(bodybae_backend.py lines 453-463). -/
def goalAdvice (goal : String) (target_weeks : ℤ) : String :=
  if goal = "Lose Weight" then
    "For healthy weight loss, aim for 0.5-1kg per week. In " ++ toString target_weeks ++
      " weeks, you could realistically lose " ++ toString (pyInt (target_weeks * 0.5)) ++
      "-" ++ toString target_weeks ++ "kg."
  else if goal = "Gain Weight" then
    "For healthy weight gain, aim for 0.25-0.5kg per week. In " ++ toString target_weeks ++
      " weeks, you could gain " ++ toString (pyInt (target_weeks * 0.25)) ++ "-" ++
      toString (pyInt (target_weeks * 0.5)) ++ "kg."
  else if goal = "Gain Muscle" then
    "Muscle gain is gradual. With consistent training and nutrition, expect 0.25-0.5kg of muscle per month. Stay patient and consistent!"
  else if goal = "Lose Fat" then
    "Fat loss requires a calorie deficit. Combine cardio with strength training for best results. Track measurements, not just weight."
  else if goal = "Maintain Weight" then
    "Focus on consistent habits and balanced nutrition. Your maintenance calories are key to stability."
  else if goal = "Toning" then
    "Toning means building lean muscle while reducing fat. Combine strength training with moderate cardio for best results."
  else if goal = "Bulking" then
    "For bulking, eat in a 300-500 calorie surplus with plenty of protein. Focus on progressive overload in your training."
  else
    "Great goal! Stay consistent with your nutrition and training for best results."

/-- The JSON body returned by `/api/set_goal`. -/
structure SetGoalResponse where
  goal : String
  target_weeks : ℤ
  message : String
  target_calories : Option ℤ
  deriving Repr, DecidableEq

/-- The `/api/set_goal` handler (bodybae_backend.py lines 438-485).  The
local variable `target_calories` is assigned only inside the
`if user_tdee:` block, and the response expression
`target_calories if user_tdee else None` reads that local only on the
truthy path; reading it unassigned would raise `NameError`, modelled by
`readLocal`.  The user record is also mutated only on the truthy path. -/
def set_goal (users : Users) (user_id : Option String) (goal : String)
    (target_weeks : ℤ) : Except String (SetGoalResponse × Users) :=
  let user_tdee := lookupTdee users user_id
  let message := goalAdvice goal target_weeks
  -- local `target_calories`, assigned only when `user_tdee` is truthy
  let tcLocal : Option ℤ :=
    if pyTruthyInt user_tdee then
      some (calculate_goal_calories (user_tdee.getD 0) goal).1
    else none
  let calorie_info : String :=
    if pyTruthyInt user_tdee then
      "\n\n📊 " ++ (calculate_goal_calories (user_tdee.getD 0) goal).2
    else ""
  let users2 : Users :=
    if pyTruthyInt user_tdee then
      match user_id with
      | some uid =>
        if (List.lookup uid users).isSome then
          users.map (fun p =>
            if p.1 = uid then
              (p.1, { p.2 with goal := some goal, target_calories := tcLocal })
            else p)
        else users
      | none => users
    else users
  (if pyTruthyInt user_tdee then (readLocal tcLocal).map some
   else Except.ok none).map
    (fun tc =>
      ({ goal := goal, target_weeks := target_weeks,
         message := message ++ calorie_info, target_calories := tc }, users2))

end BodybaeBackend

namespace CleanMainApp
/- Embedding of `src/clean_main_app.py` (class `BodyBaeAI` and the `/chat`
route's history handling). -/

/-- Method `BodyBaeAI.calculate_bmr` (clean_main_app.py lines 66-72):
Mifflin-St Jeor, male branch when `sex.lower() in ['male', 'man', 'm']`. -/
def calculate_bmr (weight height : ℚ) (age : ℤ) (sex : String) : ℚ :=
  if ["male", "man", "m"].contains (pyLower sex) then
    10 * weight + 6.25 * height - 5 * age + 5
  else
    10 * weight + 6.25 * height - 5 * age - 161

/-- Result dictionary of `BodyBaeAI.calculate_bmi` (clean_main_app.py 85-107). -/
structure BmiInfo where
  bmi : ℚ
  category : String
  advice : String
  deriving Repr, DecidableEq

/-- Method `BodyBaeAI.calculate_bmi` (clean_main_app.py lines 85-107). -/
def calculate_bmi (weight height : ℚ) : BmiInfo :=
  let height_m := height / 100
  let bmi := weight / height_m ^ 2
  if bmi < 18.5 then
    { bmi := pyRound1 bmi, category := "Underweight",
      advice := "Consider focusing on healthy weight gain with nutrient-dense foods." }
  else if bmi < 25 then
    { bmi := pyRound1 bmi, category := "Normal Weight",
      advice := "Great job maintaining a healthy weight! Focus on overall fitness." }
  else if bmi < 30 then
    { bmi := pyRound1 bmi, category := "Overweight",
      advice := "Consider a moderate weight loss approach with balanced nutrition and exercise." }
  else
    { bmi := pyRound1 bmi, category := "Obese",
      advice := "Consult with healthcare professionals for a comprehensive weight management plan." }

/-- The history update performed by the `/chat` route on
`chat_history_db[user_id]` (clean_main_app.py lines 977-980 and 999-1002):
`.extend([...])` with a user turn and an assistant turn.  No trimming is
performed anywhere in this file. -/
def chatAppendHistory (hist : List ChatMsg) (message response t : String) : List ChatMsg :=
  hist ++ [{ role := "user", content := message, timestamp := t },
           { role := "assistant", content := response, timestamp := t }]

end CleanMainApp

namespace EnhancedBackend
/- Embedding of `src/enhanced_backend.py`. -/

/-- Method `HealthCalculator.calculate_bmr` (enhanced_backend.py lines
498-504).  Unlike the other variants, it returns `round(bmr)`. -/
def calculate_bmr (weight height : ℚ) (age : ℤ) (gender : String) : ℚ :=
  let bmr : ℚ :=
    if ["male", "man", "m"].contains (pyLower gender) then
      10 * weight + 6.25 * height - 5 * age + 5
    else
      10 * weight + 6.25 * height - 5 * age - 161
  (pyRoundHalfEven bmr : ℚ)

/-- One entry of the `targets` dictionary built by
`HealthCalculator.get_calorie_targets`.  The numeric side key is named
`deficit` for the deficit entries and `surplus` for the surplus entries in
the source; both are modelled by the single field `delta`. -/
structure CalorieTarget where
  calories : ℚ
  delta : ℚ
  description : String
  deriving Repr, DecidableEq

/-- Method `HealthCalculator.get_calorie_targets` (enhanced_backend.py
lines 557-588), including the `targets.get(goal, targets["general_fitness"])`
default. -/
def get_calorie_targets (tdee : ℚ) (goal : String) : CalorieTarget :=
  if goal = "lose_weight" then
    { calories := max 1200 (tdee - 500), delta := 500,
      description := "Moderate deficit for sustainable weight loss" }
  else if goal = "gain_muscle" then
    { calories := tdee + 300, delta := 300,
      description := "Slight surplus to support muscle growth" }
  else if goal = "maintain_weight" then
    { calories := tdee, delta := 0,
      description := "Maintenance calories to stay at current weight" }
  else if goal = "improve_endurance" then
    { calories := tdee + 100, delta := 100,
      description := "Slight surplus to fuel training" }
  else
    { calories := tdee, delta := 0,
      description := "Maintenance calories for general health" }

/-- A knowledge-base document (`HealthDocument` in the source; the
precomputed embedding vector lives in the external FAISS index and is not
observed by any claim). -/
structure HealthDocument where
  topic : String
  content : String
  deriving Repr, DecidableEq

/-- The filtering loop of `EnhancedHealthRAG.search_relevant_docs`
(enhanced_backend.py lines 357-372): given the `(document, score)` pairs
returned by the FAISS index search, keep the documents whose similarity
score is strictly above 0.3, in order. -/
def search_relevant_docs (results : List (HealthDocument × ℚ)) : List HealthDocument :=
  results.foldl (fun acc ds => if ds.2 > 0.3 then acc ++ [ds.1] else acc) []

/-- The slice of a user profile read by the fallback responder
(`user_profile.get('name', 'there')`). -/
structure EProfile where
  name : Option String
  deriving Repr, DecidableEq

/-- The `name = user_profile.get('name', 'there') if user_profile else
'there'` idiom shared by all the fallback responders. -/
def profileName : Option EProfile → String
  | some p => p.name.getD "there"
  | none => "there"

/-- Method `EnhancedHealthRAG._generate_fallback_response`
(enhanced_backend.py lines 462-485). -/
def generate_fallback_response (query : String) (user_profile : Option EProfile)
    (relevant_docs : List HealthDocument) : String :=
  let query_lower := pyLower query
  let name := profileName user_profile
  let base_response :=
    match relevant_docs with
    | d :: _ =>
      "Hi " ++ name ++ "! Based on current health science: " ++ strTake d.content 200 ++ "..."
    | [] =>
      "Hi " ++ name ++ "! I\x27m here to help with your health and fitness journey."
  if containsAny query_lower ["weight loss", "lose weight"] then
    base_response ++ "\n\nFor weight loss, focus on creating a moderate caloric deficit through nutrition and exercise. Aim for 0.5-1 kg per week for sustainable results! 💪"
  else if containsAny query_lower ["muscle", "strength", "build"] then
    base_response ++ "\n\nFor muscle building, prioritize progressive overload, adequate protein (1.6-2.2g per kg), and proper recovery. Consistency is key! 🏋️"
  else if containsAny query_lower ["cardio", "endurance", "running"] then
    base_response ++ "\n\nFor cardiovascular health, aim for 150 minutes of moderate cardio weekly. Mix steady-state with intervals for best results! 🏃"
  else
    base_response ++ "\n\nI can help with workout plans, nutrition advice, goal setting, and motivation. What specific aspect of your health would you like to focus on today? 😊"

/-- Method `EnhancedHealthRAG.generate_response` (enhanced_backend.py lines
374-460).  The OpenAI call is modelled by the parameter `gen` (it "may
raise" any exception `e : E`), and `apiKeySet` models the `if
openai.api_key:` test.  Whatever the retrieved scores were, the handler
proceeds to prompt assembly and generation; the fallback responder runs
exactly when the API key is absent or the generation call raises. -/
def generate_response {E : Type} (apiKeySet : Bool) (gen : Except E String)
    (query : String) (user_profile : Option EProfile)
    (results : List (HealthDocument × ℚ)) : String :=
  let relevant_docs := search_relevant_docs results
  if apiKeySet then
    match gen with
    | Except.ok response => pyStrip response
    | Except.error _ => generate_fallback_response query user_profile relevant_docs
  else
    generate_fallback_response query user_profile relevant_docs

end EnhancedBackend

namespace BodybaeMain
/- Embedding of `src/bodybae_main.py`. -/

/-- Method `AdvancedBodyBaeAI.get_bmi_category` (bodybae_main.py lines
106-113): a seven-band categorizer. -/
def get_bmi_category (bmi : ℚ) : String :=
  if bmi < 16 then "Severely Underweight"
  else if bmi < 18.5 then "Underweight"
  else if bmi < 25 then "Normal Weight"
  else if bmi < 30 then "Overweight"
  else if bmi < 35 then "Moderately Obese"
  else if bmi < 40 then "Severely Obese"
  else "Very Severely Obese"

/-- Function `store_conversation` (bodybae_main.py lines 1175-1188), as it
acts on the per-user list `chat_history_db[user_id]` (the source guards the
whole body by `if user_id:`; this models the stored list update): extend
with the two turns, then keep only the last 20 messages. -/
def store_conversation (hist : List ChatMsg) (message response t : String) : List ChatMsg :=
  let l := hist ++ [{ role := "user", content := message, timestamp := t },
                    { role := "assistant", content := response, timestamp := t }]
  if 20 < l.length then l.drop (l.length - 20) else l

end BodybaeMain

namespace ProgressTracker
/- Embedding of `src/bodybae-progress-tracker.py` (class `ProgressTracker`).
Database rows are modelled by records; `(date₁ - date₂).days` differences
are modelled by their integer day counts. -/

/-- The slice of the user row read by the progress calculators:
`starting_weight` is the weight of the first progress log, falling back to
the profile weight, and `weight` is the current profile weight. -/
structure PUser where
  starting_weight : ℚ
  weight : ℚ
  deriving Repr, DecidableEq

/-- A goal row: `days_elapsed` models `(datetime.utcnow() - goal.start_date).days`
and `total_days` models `(goal.target_date - goal.start_date).days`. -/
structure PGoal where
  goal_type : String
  target_value : ℚ
  days_elapsed : ℤ
  total_days : ℤ
  completed : Bool
  deriving Repr, DecidableEq

/-- The fields of the progress dictionary observed by
`check_goal_progress`; the human-readable `message` strings and the
per-variant display keys are not read anywhere and are omitted. -/
structure ProgressRep where
  goal_type : String
  percentage : ℚ
  deriving Repr, DecidableEq

/-- Method `calculate_weight_loss_progress` (bodybae-progress-tracker.py
lines 72-94).  The stored `percentage` is `round(percentage, 1)` of the raw
ratio, which is 0 when `total_to_lose` is not positive. -/
def calculate_weight_loss_progress (u : PUser) (g : PGoal) : ProgressRep :=
  let starting_weight := u.starting_weight
  let current_weight := u.weight
  let target_weight := g.target_value
  let total_to_lose := starting_weight - target_weight
  let lost_so_far := starting_weight - current_weight
  let percentage : ℚ := if 0 < total_to_lose then lost_so_far / total_to_lose * 100 else 0
  { goal_type := "Weight Loss", percentage := pyRound1 percentage }

/-- Method `calculate_weight_gain_progress` (bodybae-progress-tracker.py
lines 96-117). -/
def calculate_weight_gain_progress (u : PUser) (g : PGoal) : ProgressRep :=
  let starting_weight := u.starting_weight
  let current_weight := u.weight
  let target_weight := g.target_value
  let total_to_gain := target_weight - starting_weight
  let gained_so_far := current_weight - starting_weight
  let percentage : ℚ := if 0 < total_to_gain then gained_so_far / total_to_gain * 100 else 0
  { goal_type := "Weight Gain", percentage := pyRound1 percentage }

/-- Method `calculate_general_progress` (bodybae-progress-tracker.py lines
119-132).  The display label `goal.goal_type.replace('_', ' ').title()` is
modelled by the raw `goal_type`. -/
def calculate_general_progress (g : PGoal) : ProgressRep :=
  let percentage : ℚ :=
    if 0 < g.total_days then (g.days_elapsed : ℚ) / (g.total_days : ℚ) * 100 else 0
  { goal_type := g.goal_type, percentage := pyRound1 percentage }

/-- The per-goal dispatch of `check_goal_progress` (bodybae-progress-tracker.py
lines 55-61). -/
def progressOf (u : PUser) (g : PGoal) : ProgressRep :=
  if g.goal_type = "lose_weight" then calculate_weight_loss_progress u g
  else if g.goal_type = "gain_weight" then calculate_weight_gain_progress u g
  else calculate_general_progress g

/-- One iteration of the `check_goal_progress` loop (bodybae-progress-tracker.py
lines 55-68) on an active, not-yet-completed goal: the goal's `completed`
flag is set exactly when `progress['percentage'] >= 100`. -/
def check_goal_step (u : PUser) (g : PGoal) : PGoal :=
  if (progressOf u g).percentage ≥ 100 then { g with completed := true } else g

end ProgressTracker

namespace CleanRagSystem
/- Embedding of `src/clean_rag_system.py` (class `HealthRAGSystem`). -/

/-- The slice of the user profile read by the fallback responder. -/
structure RProfile where
  name : Option String
  deriving Repr, DecidableEq

/-- The shared `user_profile.get('name', 'there') if user_profile else
'there'` idiom. -/
def profileName : Option RProfile → String
  | some p => p.name.getD "there"
  | none => "there"

/-- Method `HealthRAGSystem.get_fallback_response` (clean_rag_system.py
lines 314-329). -/
def get_fallback_response (question : String) (user_profile : Option RProfile) : String :=
  let name := profileName user_profile
  let question_lower := pyLower question
  if containsAny question_lower ["weight loss", "lose weight"] then
    "Hi " ++ name ++ "! For healthy weight loss, create a moderate caloric deficit through balanced nutrition and regular exercise. Focus on whole foods and stay consistent! 💪"
  else if containsAny question_lower ["muscle", "build muscle"] then
    "Great question, " ++ name ++ "! To build muscle: eat adequate protein (1.6-2.2g per kg body weight), focus on progressive overload, and get plenty of sleep for recovery! 🏋️"
  else if containsAny question_lower ["workout", "exercise"] then
    "For effective workouts, " ++ name ++ ", combine strength training with cardio, focus on compound movements, and aim for consistency over perfection! 🌟"
  else
    "Hi " ++ name ++ "! I\x27m here to help with your health and fitness journey. I can provide advice on nutrition, workouts, weight management, and motivation. What would you like to know more about? 😊"

/-- Method `HealthRAGSystem.get_health_response` (clean_rag_system.py lines
180-210).  The whole body — retrieval, prompt assembly and generation — sits
inside one `try:`, modelled by the parameter `gen`; any raised exception
`e : E` is caught and routed to `get_fallback_response`. -/
def get_health_response {E : Type} (gen : Except E String) (question : String)
    (user_profile : Option RProfile) : String :=
  match gen with
  | Except.ok response => response
  | Except.error _ => get_fallback_response question user_profile

end CleanRagSystem

namespace RagSystem
/- Embedding of `src/rag_system.py` (class `EnhancedHealthRAGSystem`). -/

/-- Method `EnhancedHealthRAGSystem.get_fallback_response` (rag_system.py
lines 81-104). -/
def get_fallback_response (question : String)
    (user_profile : Option CleanRagSystem.RProfile) : String :=
  let question_lower := pyLower question
  let name := CleanRagSystem.profileName user_profile
  if containsAny question_lower ["weight loss", "lose weight", "losing weight"] then
    "Hi " ++ name ++ "! For healthy weight loss, focus on creating a moderate caloric deficit (500-750 calories daily), combine cardio and strength training, eat plenty of protein, and stay hydrated. Remember, sustainable weight loss is 0.5-1 kg per week. You\x27ve got this! 💪"
  else if containsAny question_lower ["muscle", "gain muscle", "build muscle"] then
    "Great question, " ++ name ++ "! To build muscle, focus on progressive overload in your workouts, eat 1.6-2.2g protein per kg body weight daily, get 7-9 hours of sleep, and be patient - muscle growth takes time. Compound exercises like squats and deadlifts are your best friends! 🏋️"
  else if containsAny question_lower ["workout", "exercise", "training"] then
    "Hi " ++ name ++ "! For effective workouts, aim for 150 minutes of moderate cardio per week plus 2-3 strength training sessions. Start with what you can handle and gradually increase intensity. Consistency beats perfection every time! 🌟"
  else if containsAny question_lower ["nutrition", "diet", "food", "eat"] then
    "Nutrition is so important, " ++ name ++ "! Focus on whole foods: lean proteins, vegetables, fruits, whole grains, and healthy fats. Eat balanced meals, stay hydrated, and don\x27t forget that small, sustainable changes lead to big results over time! 🥗"
  else if containsAny question_lower ["motivation", "motivated", "give up"] then
    "I believe in you, " ++ name ++ "! 🌟 Remember why you started this journey. Every small step counts, progress isn\x27t always linear, and setbacks are just setups for comebacks. You\x27re stronger than you think and capable of amazing things!"
  else
    "Hi " ++ name ++ "! I\x27m here to help with your health and fitness journey. I can assist with workout plans, nutrition advice, weight management, and motivation. What specific aspect of your health would you like to focus on today? 😊"

end RagSystem

/-! ### General helper lemmas -/

/-- String concatenation acts as list concatenation on the underlying data. -/
theorem strData_append (a b : String) : (a ++ b).data = a.data ++ b.data := rfl

/-- A three-part concatenation with a nonempty head is nonempty. -/
theorem strNeEmpty3 (a b c : String) (ha : a.data ≠ []) : a ++ b ++ c ≠ "" := by
  intro h
  have h2 : (a ++ b ++ c).data = ([] : List Char) := by rw [h]
  rw [strData_append, strData_append] at h2
  exact ha (List.append_eq_nil.mp (List.append_eq_nil.mp h2).1).1

/-- A two-part concatenation with a nonempty head is nonempty. -/
theorem strNeEmpty2 (a b : String) (ha : a.data ≠ []) : a ++ b ≠ "" := by
  intro h
  have h2 : (a ++ b).data = ([] : List Char) := by rw [h]
  rw [strData_append] at h2
  exact ha (List.append_eq_nil.mp h2).1

/-- Evaluation rule for `pyRoundHalfEven` when the fractional part is below
one half. -/
theorem pyRoundHalfEven_lt (q : ℚ) (f : ℤ) (h1 : ⌊q⌋ = f) (h2 : q - f < 1/2) :
    pyRoundHalfEven q = f := by
  unfold pyRoundHalfEven
  rw [h1, if_pos h2]

/-- Evaluation rule for `pyRoundHalfEven` when the fractional part is above
one half. -/
theorem pyRoundHalfEven_gt (q : ℚ) (f : ℤ) (h1 : ⌊q⌋ = f) (h2 : 1/2 < q - f) :
    pyRoundHalfEven q = f + 1 := by
  unfold pyRoundHalfEven
  rw [h1, if_neg (by linarith), if_pos h2]

/-- Python `round(0.0, 1)` is 0. -/
theorem pyRound1_zero : pyRound1 0 = 0 := by
  have h : pyRoundHalfEven (10 * 0) = 0 := pyRoundHalfEven_lt _ 0 (by norm_num) (by norm_num)
  unfold pyRound1
  rw [h]
  norm_num

/-! ### Unfolding lemmas for the BMR variants -/

theorem clean_bmr_male (w h : ℚ) (a : ℤ) :
    CleanMainApp.calculate_bmr w h a "male" = 10 * w + 6.25 * h - 5 * a + 5 := rfl

theorem clean_bmr_female (w h : ℚ) (a : ℤ) :
    CleanMainApp.calculate_bmr w h a "female" = 10 * w + 6.25 * h - 5 * a - 161 := rfl

theorem onboard_bmr_male (w h : ℚ) (a : ℤ) :
    BodybaeBackend.onboard_bmr w h a "male" = 10 * w + 6.25 * h - 5 * a + 5 := rfl

theorem onboard_bmr_female (w h : ℚ) (a : ℤ) :
    BodybaeBackend.onboard_bmr w h a "female" = 10 * w + 6.25 * h - 5 * a - 161 := rfl

theorem enhanced_bmr_male (w h : ℚ) (a : ℤ) :
    EnhancedBackend.calculate_bmr w h a "male" =
      (pyRoundHalfEven (10 * w + 6.25 * h - 5 * a + 5) : ℚ) := rfl

theorem enhanced_bmr_female (w h : ℚ) (a : ℤ) :
    EnhancedBackend.calculate_bmr w h a "female" =
      (pyRoundHalfEven (10 * w + 6.25 * h - 5 * a - 161) : ℚ) := rfl

/-! ### Claim C1 -/

/-- C1 (counterexample): the claim fails as stated.  At the validated input
weight 70 kg, height 175 cm, age 30, sex male, the BMR function of
`enhanced_backend.py` does not return the Mifflin-St Jeor value
10·w + 6.25·h − 5·a + 5 = 1648.75: it returns the rounded value 1649. -/
theorem C1_enhanced_bmr_rounds_counterexample :
    EnhancedBackend.calculate_bmr 70 175 30 "male" ≠
      10 * 70 + 6.25 * 175 - 5 * 30 + 5 := by
  have harg : 10 * (70 : ℚ) + 6.25 * 175 - 5 * ((30 : ℤ) : ℚ) + 5 = 1648.75 := by
    norm_num
  have h2 : pyRoundHalfEven 1648.75 = 1649 := by
    refine pyRoundHalfEven_gt _ 1648 (by norm_num) (by norm_num)
  rw [enhanced_bmr_male, harg, h2]
  norm_num

/-- C1 (amended): for every validated input (weight > 0, height > 0,
age > 0), the BMR computations of `clean_main_app.py` and of the
`/api/onboard` handler of `bodybae_backend.py` return exactly
10·w + 6.25·h − 5·a + 5 for sex male and 10·w + 6.25·h − 5·a − 161 for sex
female (Mifflin-St Jeor), while `enhanced_backend.py`'s
`HealthCalculator.calculate_bmr` returns that value rounded to the nearest
integer (half to even). -/
theorem C1_bmr_formula_by_variant (w h : ℚ) (a : ℤ)
    (hw : 0 < w) (hh : 0 < h) (ha : 0 < a) :
    CleanMainApp.calculate_bmr w h a "male" = 10 * w + 6.25 * h - 5 * a + 5
    ∧ CleanMainApp.calculate_bmr w h a "female" = 10 * w + 6.25 * h - 5 * a - 161
    ∧ BodybaeBackend.onboard_bmr w h a "male" = 10 * w + 6.25 * h - 5 * a + 5
    ∧ BodybaeBackend.onboard_bmr w h a "female" = 10 * w + 6.25 * h - 5 * a - 161
    ∧ EnhancedBackend.calculate_bmr w h a "male" =
        (pyRoundHalfEven (10 * w + 6.25 * h - 5 * a + 5) : ℚ)
    ∧ EnhancedBackend.calculate_bmr w h a "female" =
        (pyRoundHalfEven (10 * w + 6.25 * h - 5 * a - 161) : ℚ) :=
  ⟨rfl, rfl, rfl, rfl, rfl, rfl⟩

/-- C1 witness: the amended theorem applied at weight 70, height 175, age 30. -/
theorem C1_bmr_formula_witness :
    CleanMainApp.calculate_bmr 70 175 30 "male" = 10 * 70 + 6.25 * 175 - 5 * (30 : ℤ) + 5
    ∧ CleanMainApp.calculate_bmr 70 175 30 "female" = 10 * 70 + 6.25 * 175 - 5 * (30 : ℤ) - 161
    ∧ BodybaeBackend.onboard_bmr 70 175 30 "male" = 10 * 70 + 6.25 * 175 - 5 * (30 : ℤ) + 5
    ∧ BodybaeBackend.onboard_bmr 70 175 30 "female" = 10 * 70 + 6.25 * 175 - 5 * (30 : ℤ) - 161
    ∧ EnhancedBackend.calculate_bmr 70 175 30 "male" =
        (pyRoundHalfEven (10 * 70 + 6.25 * 175 - 5 * (30 : ℤ) + 5) : ℚ)
    ∧ EnhancedBackend.calculate_bmr 70 175 30 "female" =
        (pyRoundHalfEven (10 * 70 + 6.25 * 175 - 5 * (30 : ℤ) - 161) : ℚ) :=
  C1_bmr_formula_by_variant 70 175 30 (by norm_num) (by norm_num) (by norm_num)

/-! ### Claim C2 -/

/-- C2 (counterexample): the claim fails as stated.  At weight 70 kg,
height 175 cm, age 30, the male BMR of `clean_main_app.py` is 1648.75 (the
spec's figure 1673.75 is the value of the formula at age 25, not 30). -/
theorem C2_bmr_at_70_175_30_counterexample :
    CleanMainApp.calculate_bmr 70 175 30 "male" ≠ 1673.75 := by
  rw [clean_bmr_male]
  norm_num

/-- C2 (amended): for weight 70 kg, height 175 cm, age 30, the male BMR of
`clean_main_app.py` is exactly 1648.75 and the female BMR is exactly
1482.75; `enhanced_backend.py` returns the rounded values 1649 and 1483;
in both variants male BMR minus female BMR equals exactly 166. -/
theorem C2_bmr_parity_at_70_175_30 :
    CleanMainApp.calculate_bmr 70 175 30 "male" = 1648.75
    ∧ CleanMainApp.calculate_bmr 70 175 30 "female" = 1482.75
    ∧ CleanMainApp.calculate_bmr 70 175 30 "male"
        - CleanMainApp.calculate_bmr 70 175 30 "female" = 166
    ∧ EnhancedBackend.calculate_bmr 70 175 30 "male" = 1649
    ∧ EnhancedBackend.calculate_bmr 70 175 30 "female" = 1483
    ∧ EnhancedBackend.calculate_bmr 70 175 30 "male"
        - EnhancedBackend.calculate_bmr 70 175 30 "female" = 166 := by
  have hm : CleanMainApp.calculate_bmr 70 175 30 "male" = 1648.75 := by
    rw [clean_bmr_male]; norm_num
  have hf : CleanMainApp.calculate_bmr 70 175 30 "female" = 1482.75 := by
    rw [clean_bmr_female]; norm_num
  have hem : EnhancedBackend.calculate_bmr 70 175 30 "male" = 1649 := by
    rw [enhanced_bmr_male]
    have harg : 10 * (70 : ℚ) + 6.25 * 175 - 5 * ((30 : ℤ) : ℚ) + 5 = 1648.75 := by norm_num
    rw [harg, pyRoundHalfEven_gt _ 1648 (by norm_num) (by norm_num)]
    norm_num
  have hef : EnhancedBackend.calculate_bmr 70 175 30 "female" = 1483 := by
    rw [enhanced_bmr_female]
    have harg : 10 * (70 : ℚ) + 6.25 * 175 - 5 * ((30 : ℤ) : ℚ) - 161 = 1482.75 := by norm_num
    rw [harg, pyRoundHalfEven_gt _ 1482 (by norm_num) (by norm_num)]
    norm_num
  refine ⟨hm, hf, ?_, hem, hef, ?_⟩
  · rw [hm, hf]; norm_num
  · rw [hem, hef]; norm_num

/-! ### Claim C3 -/

/-- For a not-yet-completed weight-loss goal, one iteration of
`check_goal_progress` sets `completed` exactly when the stored (rounded)
percentage reaches 100. -/
theorem wl_step_completed_iff (u : ProgressTracker.PUser) (g : ProgressTracker.PGoal)
    (hty : g.goal_type = "lose_weight") (hc : g.completed = false) :
    ((ProgressTracker.check_goal_step u g).completed = true ↔
      100 ≤ (ProgressTracker.calculate_weight_loss_progress u g).percentage) := by
  have hdisp : ProgressTracker.progressOf u g =
      ProgressTracker.calculate_weight_loss_progress u g := by
    unfold ProgressTracker.progressOf
    rw [if_pos hty]
  unfold ProgressTracker.check_goal_step
  rw [hdisp]
  by_cases hge : 100 ≤ (ProgressTracker.calculate_weight_loss_progress u g).percentage
  · rw [if_pos (by exact hge)]
    simp [hge]
  · rw [if_neg (by exact hge)]
    simp [hc, hge]

/-- C3 (counterexample): the claim fails as stated.  A weight-loss goal
whose computed raw percentage is exactly 99.99 (start 100, current 90.001,
target 90) does have its `completed` flag flipped to true, because the code
compares `round(percentage, 1)` — which is 100.0 — against 100, not the raw
percentage. -/
theorem C3_raw_99_99_flips_counterexample :
    ((100 : ℚ) - 90.001) / ((100 : ℚ) - 90) * 100 = 99.99
    ∧ (ProgressTracker.check_goal_step ⟨100, 90.001⟩
        ⟨"lose_weight", 90, 0, 0, false⟩).completed = true := by
  have hraw : ((100 : ℚ) - 90.001) / ((100 : ℚ) - 90) * 100 = 99.99 := by norm_num
  have h999 : pyRoundHalfEven ((10 : ℚ) * 99.99) = 1000 := by
    have h : (10 : ℚ) * 99.99 = 999.9 := by norm_num
    rw [h]
    exact pyRoundHalfEven_gt _ 999 (by norm_num) (by norm_num)
  have hp : pyRound1 (99.99 : ℚ) = 100 := by
    unfold pyRound1
    rw [h999]
    norm_num
  have hper : (ProgressTracker.calculate_weight_loss_progress ⟨100, 90.001⟩
      ⟨"lose_weight", 90, 0, 0, false⟩).percentage = 100 := by
    show pyRound1
      (if (0 : ℚ) < (100 : ℚ) - 90 then ((100 : ℚ) - 90.001) / ((100 : ℚ) - 90) * 100 else 0) = 100
    rw [if_pos (by norm_num), hraw, hp]
  refine ⟨hraw, ?_⟩
  exact (wl_step_completed_iff ⟨100, 90.001⟩ ⟨"lose_weight", 90, 0, 0, false⟩ rfl rfl).mpr
    (by rw [hper])

/-- C3 (amended): for every not-yet-completed weight-loss goal with a
positive total distance, the stored percentage is the raw ratio rounded to
one decimal place, and the progress check flips `completed` to true exactly
when that rounded percentage reaches 100.0 (so a raw percentage of exactly
100.0 flips it, but so does any raw percentage from 99.95 up, such as
99.99; raw percentages rounding below 100.0, such as 99.94, do not). -/
theorem C3_goal_completion_boundary (u : ProgressTracker.PUser) (g : ProgressTracker.PGoal)
    (hty : g.goal_type = "lose_weight") (hc : g.completed = false)
    (htot : 0 < u.starting_weight - g.target_value) :
    (ProgressTracker.calculate_weight_loss_progress u g).percentage =
      pyRound1 ((u.starting_weight - u.weight) / (u.starting_weight - g.target_value) * 100)
    ∧ ((ProgressTracker.check_goal_step u g).completed = true ↔
        100 ≤ pyRound1 ((u.starting_weight - u.weight) / (u.starting_weight - g.target_value) * 100)) := by
  have hper : (ProgressTracker.calculate_weight_loss_progress u g).percentage =
      pyRound1 ((u.starting_weight - u.weight) / (u.starting_weight - g.target_value) * 100) := by
    show pyRound1
      (if 0 < u.starting_weight - g.target_value then
        (u.starting_weight - u.weight) / (u.starting_weight - g.target_value) * 100 else 0) = _
    rw [if_pos htot]
  exact ⟨hper, by rw [← hper]; exact wl_step_completed_iff u g hty hc⟩

/-- C3 witness: the amended theorem at start 100, current 90, target 90 —
the raw percentage is exactly 100, and `completed` flips. -/
theorem C3_goal_completion_boundary_witness :
    (ProgressTracker.calculate_weight_loss_progress ⟨100, 90⟩
        ⟨"lose_weight", 90, 0, 0, false⟩).percentage =
      pyRound1 (((100 : ℚ) - 90) / ((100 : ℚ) - 90) * 100)
    ∧ ((ProgressTracker.check_goal_step ⟨100, 90⟩
          ⟨"lose_weight", 90, 0, 0, false⟩).completed = true ↔
        100 ≤ pyRound1 (((100 : ℚ) - 90) / ((100 : ℚ) - 90) * 100)) :=
  C3_goal_completion_boundary ⟨100, 90⟩ ⟨"lose_weight", 90, 0, 0, false⟩ rfl rfl
    (by norm_num)

/-! ### Claim C9 -/

/-- C9: none of the three progress calculators divides when its denominator
is not positive — a non-positive weight-loss distance, weight-gain distance
or total-day count each short-circuits the percentage to 0. -/
theorem C9_no_division_by_zero (u : ProgressTracker.PUser) (g : ProgressTracker.PGoal) :
    (u.starting_weight - g.target_value ≤ 0 →
      (ProgressTracker.calculate_weight_loss_progress u g).percentage = 0)
    ∧ (g.target_value - u.starting_weight ≤ 0 →
      (ProgressTracker.calculate_weight_gain_progress u g).percentage = 0)
    ∧ (g.total_days ≤ 0 →
      (ProgressTracker.calculate_general_progress g).percentage = 0) := by
  refine ⟨fun h1 => ?_, fun h2 => ?_, fun h3 => ?_⟩
  · show pyRound1
      (if 0 < u.starting_weight - g.target_value then
        (u.starting_weight - u.weight) / (u.starting_weight - g.target_value) * 100 else 0) = 0
    rw [if_neg (by linarith), pyRound1_zero]
  · show pyRound1
      (if 0 < g.target_value - u.starting_weight then
        (u.weight - u.starting_weight) / (g.target_value - u.starting_weight) * 100 else 0) = 0
    rw [if_neg (by linarith), pyRound1_zero]
  · show pyRound1
      (if 0 < g.total_days then (g.days_elapsed : ℚ) / (g.total_days : ℚ) * 100 else 0) = 0
    rw [if_neg (by omega), pyRound1_zero]

/-- C9 witness: a goal whose target equals the starting weight and whose
total-day count is 0 — all three guards fire and all three percentages are 0. -/
theorem C9_no_division_by_zero_witness :
    (ProgressTracker.calculate_weight_loss_progress ⟨70, 70⟩
      ⟨"general", 70, 5, 0, false⟩).percentage = 0
    ∧ (ProgressTracker.calculate_weight_gain_progress ⟨70, 70⟩
      ⟨"general", 70, 5, 0, false⟩).percentage = 0
    ∧ (ProgressTracker.calculate_general_progress ⟨"general", 70, 5, 0, false⟩).percentage = 0 :=
  ⟨(C9_no_division_by_zero ⟨70, 70⟩ ⟨"general", 70, 5, 0, false⟩).1
      (by show (70 : ℚ) - 70 ≤ 0; norm_num),
   (C9_no_division_by_zero ⟨70, 70⟩ ⟨"general", 70, 5, 0, false⟩).2.1
      (by show (70 : ℚ) - 70 ≤ 0; norm_num),
   (C9_no_division_by_zero ⟨70, 70⟩ ⟨"general", 70, 5, 0, false⟩).2.2
      (by show (0 : ℤ) ≤ 0; norm_num)⟩

/-! ### Claim C8 -/

/-- Trimming a list to its last 20 elements bounds its length by 20. -/
theorem dropBound (l : List ChatMsg) :
    (if 20 < l.length then l.drop (l.length - 20) else l).length ≤ 20 := by
  split_ifs with h
  · rw [List.length_drop]
    omega
  · omega

/-- C8 (counterexample): the claim fails as stated.  The `/chat` route of
`clean_main_app.py` appends two messages per exchange and never trims:
after 11 exchanges the per-user history holds 22 messages, exceeding the
bound N = 20. -/
theorem C8_clean_chat_unbounded_counterexample :
    ((List.range 11).foldl
        (fun h _ => CleanMainApp.chatAppendHistory h "m" "r" "t") []).length = 22
    ∧ 20 < 22 := by
  constructor
  · rfl
  · norm_num

/-- C8 (amended): `store_conversation` of `bodybae_main.py` maintains the
invariant that the per-user history never exceeds 20 messages after any
append; the `/chat` route of `clean_main_app.py` also appends two messages
per exchange but performs no trimming, so its history grows without bound
(each call adds exactly 2 to the length). -/
theorem C8_history_bound_by_variant (hist : List ChatMsg) (m r t : String) :
    (BodybaeMain.store_conversation hist m r t).length ≤ 20
    ∧ (CleanMainApp.chatAppendHistory hist m r t).length = hist.length + 2 := by
  constructor
  · exact dropBound (hist ++ [{ role := "user", content := m, timestamp := t },
      { role := "assistant", content := r, timestamp := t }])
  · simp [CleanMainApp.chatAppendHistory]

/-! ### Claim C4 -/

/-- C4 (counterexample): the claim fails as stated.  In `bodybae_main.py`
the categorizer is a seven-band step function: at BMI 15 (< 18.5) it
returns "Severely Underweight", not "Underweight", so the boundaries are
not exactly {18.5, 25, 30} in every variant. -/
theorem C4_seven_band_categorizer_counterexample :
    BodybaeMain.get_bmi_category 15 ≠ "Underweight" ∧ (15 : ℚ) < 18.5 := by
  constructor
  · unfold BodybaeMain.get_bmi_category
    rw [if_pos (by norm_num)]
    decide
  · norm_num

/-- C4 (amended): for every positive weight (kg) and height (cm), the BMI
used for categorization is weight / (height/100)², and the returned BMI
value is its rounding to one decimal.  The categorizers of
`bodybae_backend.py` and `clean_main_app.py` are step functions with
boundaries exactly {18.5, 25, 30} (labels "Normal weight" resp.
"Normal Weight"); the categorizer of `bodybae_main.py` refines the scale to
seven bands with additional boundaries {16, 35, 40}, so there "Underweight"
holds iff 16 ≤ BMI < 18.5 and the label "Obese" is never returned. -/
theorem C4_bmi_step_function (w h : ℚ) (hw : 0 < w) (hh : 0 < h) (b : ℚ) :
    (BodybaeBackend.calculate_bmi w h).bmi = pyRound1 (w / (h / 100) ^ 2)
    ∧ ((BodybaeBackend.calculate_bmi w h).category = "Underweight" ↔
        w / (h / 100) ^ 2 < 18.5)
    ∧ ((BodybaeBackend.calculate_bmi w h).category = "Normal weight" ↔
        18.5 ≤ w / (h / 100) ^ 2 ∧ w / (h / 100) ^ 2 < 25)
    ∧ ((BodybaeBackend.calculate_bmi w h).category = "Overweight" ↔
        25 ≤ w / (h / 100) ^ 2 ∧ w / (h / 100) ^ 2 < 30)
    ∧ ((BodybaeBackend.calculate_bmi w h).category = "Obese" ↔
        30 ≤ w / (h / 100) ^ 2)
    ∧ (CleanMainApp.calculate_bmi w h).bmi = pyRound1 (w / (h / 100) ^ 2)
    ∧ ((CleanMainApp.calculate_bmi w h).category = "Underweight" ↔
        w / (h / 100) ^ 2 < 18.5)
    ∧ ((CleanMainApp.calculate_bmi w h).category = "Normal Weight" ↔
        18.5 ≤ w / (h / 100) ^ 2 ∧ w / (h / 100) ^ 2 < 25)
    ∧ ((CleanMainApp.calculate_bmi w h).category = "Overweight" ↔
        25 ≤ w / (h / 100) ^ 2 ∧ w / (h / 100) ^ 2 < 30)
    ∧ ((CleanMainApp.calculate_bmi w h).category = "Obese" ↔
        30 ≤ w / (h / 100) ^ 2)
    ∧ (BodybaeMain.get_bmi_category b = "Severely Underweight" ↔ b < 16)
    ∧ (BodybaeMain.get_bmi_category b = "Underweight" ↔ 16 ≤ b ∧ b < 18.5)
    ∧ (BodybaeMain.get_bmi_category b = "Normal Weight" ↔ 18.5 ≤ b ∧ b < 25)
    ∧ (BodybaeMain.get_bmi_category b = "Overweight" ↔ 25 ≤ b ∧ b < 30)
    ∧ (BodybaeMain.get_bmi_category b = "Moderately Obese" ↔ 30 ≤ b ∧ b < 35)
    ∧ (BodybaeMain.get_bmi_category b = "Severely Obese" ↔ 35 ≤ b ∧ b < 40)
    ∧ (BodybaeMain.get_bmi_category b = "Very Severely Obese" ↔ 40 ≤ b) := by
  refine ⟨?_, ?_, ?_, ?_, ?_, ?_, ?_, ?_, ?_, ?_, ?_, ?_, ?_, ?_, ?_, ?_, ?_⟩ <;>
    simp only [BodybaeBackend.calculate_bmi, CleanMainApp.calculate_bmi,
      BodybaeMain.get_bmi_category] <;>
    split_ifs <;>
    simp_all [not_lt, not_and] <;>
    try linarith
  all_goals try (intro hx; linarith)

/-- C4 witness: the amended theorem at weight 70 kg, height 175 cm, and
probe BMI 22. -/
theorem C4_bmi_step_function_witness :
    (BodybaeBackend.calculate_bmi 70 175).bmi = pyRound1 ((70 : ℚ) / ((175 : ℚ) / 100) ^ 2)
    ∧ ((BodybaeBackend.calculate_bmi 70 175).category = "Underweight" ↔
        (70 : ℚ) / ((175 : ℚ) / 100) ^ 2 < 18.5)
    ∧ ((BodybaeBackend.calculate_bmi 70 175).category = "Normal weight" ↔
        18.5 ≤ (70 : ℚ) / ((175 : ℚ) / 100) ^ 2 ∧ (70 : ℚ) / ((175 : ℚ) / 100) ^ 2 < 25)
    ∧ ((BodybaeBackend.calculate_bmi 70 175).category = "Overweight" ↔
        25 ≤ (70 : ℚ) / ((175 : ℚ) / 100) ^ 2 ∧ (70 : ℚ) / ((175 : ℚ) / 100) ^ 2 < 30)
    ∧ ((BodybaeBackend.calculate_bmi 70 175).category = "Obese" ↔
        30 ≤ (70 : ℚ) / ((175 : ℚ) / 100) ^ 2)
    ∧ (CleanMainApp.calculate_bmi 70 175).bmi = pyRound1 ((70 : ℚ) / ((175 : ℚ) / 100) ^ 2)
    ∧ ((CleanMainApp.calculate_bmi 70 175).category = "Underweight" ↔
        (70 : ℚ) / ((175 : ℚ) / 100) ^ 2 < 18.5)
    ∧ ((CleanMainApp.calculate_bmi 70 175).category = "Normal Weight" ↔
        18.5 ≤ (70 : ℚ) / ((175 : ℚ) / 100) ^ 2 ∧ (70 : ℚ) / ((175 : ℚ) / 100) ^ 2 < 25)
    ∧ ((CleanMainApp.calculate_bmi 70 175).category = "Overweight" ↔
        25 ≤ (70 : ℚ) / ((175 : ℚ) / 100) ^ 2 ∧ (70 : ℚ) / ((175 : ℚ) / 100) ^ 2 < 30)
    ∧ ((CleanMainApp.calculate_bmi 70 175).category = "Obese" ↔
        30 ≤ (70 : ℚ) / ((175 : ℚ) / 100) ^ 2)
    ∧ (BodybaeMain.get_bmi_category 22 = "Severely Underweight" ↔ (22 : ℚ) < 16)
    ∧ (BodybaeMain.get_bmi_category 22 = "Underweight" ↔ 16 ≤ (22 : ℚ) ∧ (22 : ℚ) < 18.5)
    ∧ (BodybaeMain.get_bmi_category 22 = "Normal Weight" ↔ 18.5 ≤ (22 : ℚ) ∧ (22 : ℚ) < 25)
    ∧ (BodybaeMain.get_bmi_category 22 = "Overweight" ↔ 25 ≤ (22 : ℚ) ∧ (22 : ℚ) < 30)
    ∧ (BodybaeMain.get_bmi_category 22 = "Moderately Obese" ↔ 30 ≤ (22 : ℚ) ∧ (22 : ℚ) < 35)
    ∧ (BodybaeMain.get_bmi_category 22 = "Severely Obese" ↔ 35 ≤ (22 : ℚ) ∧ (22 : ℚ) < 40)
    ∧ (BodybaeMain.get_bmi_category 22 = "Very Severely Obese" ↔ 40 ≤ (22 : ℚ)) :=
  C4_bmi_step_function 70 175 (by norm_num) (by norm_num) 22

/-! ### Claim C5 -/

/-- C5 (counterexample): the claim fails as stated.  In
`enhanced_backend.py`, for TDEE 1500 the lose-weight target is clamped to
`max(1200, tdee - 500)` = 1200, not TDEE − 500 = 1000. -/
theorem C5_lose_weight_floor_counterexample :
    (EnhancedBackend.get_calorie_targets 1500 "lose_weight").calories = 1200
    ∧ (EnhancedBackend.get_calorie_targets 1500 "lose_weight").calories ≠ (1500 : ℚ) - 500 := by
  have h : (EnhancedBackend.get_calorie_targets 1500 "lose_weight").calories = 1200 := by
    show max 1200 ((1500 : ℚ) - 500) = 1200
    rw [max_eq_left (by norm_num)]
  exact ⟨h, by rw [h]; norm_num⟩

/-- C5 (amended): in `bodybae_backend.py` the goal-adjusted target is TDEE
plus a fixed offset for every TDEE (Lose Weight / Lose Fat −500,
Gain Weight +300, Gain Muscle +250, Bulking +500, Toning −250, otherwise
maintain at TDEE), each with a textual advice string; in
`enhanced_backend.py` the goal keys differ, the lose-weight target is
clamped below at 1200 calories (`max(1200, tdee − 500)`), gain_muscle adds
+300 (not +250), improve_endurance adds +100, and unknown goals (including
any gain-weight spelling) fall back to maintenance at TDEE. -/
theorem C5_goal_calorie_offsets (tdee : ℤ) (t : ℚ) :
    (BodybaeBackend.calculate_goal_calories tdee "Lose Weight").1 = tdee - 500
    ∧ (BodybaeBackend.calculate_goal_calories tdee "Lose Fat").1 = tdee - 500
    ∧ (BodybaeBackend.calculate_goal_calories tdee "Gain Weight").1 = tdee + 300
    ∧ (BodybaeBackend.calculate_goal_calories tdee "Gain Muscle").1 = tdee + 250
    ∧ (BodybaeBackend.calculate_goal_calories tdee "Bulking").1 = tdee + 500
    ∧ (BodybaeBackend.calculate_goal_calories tdee "Toning").1 = tdee - 250
    ∧ (BodybaeBackend.calculate_goal_calories tdee "Maintain Weight").1 = tdee
    ∧ (BodybaeBackend.calculate_goal_calories tdee "Lose Weight").2 ≠ ""
    ∧ (BodybaeBackend.calculate_goal_calories tdee "Maintain Weight").2 ≠ ""
    ∧ (EnhancedBackend.get_calorie_targets t "lose_weight").calories = max 1200 (t - 500)
    ∧ (EnhancedBackend.get_calorie_targets t "gain_muscle").calories = t + 300
    ∧ (EnhancedBackend.get_calorie_targets t "maintain_weight").calories = t
    ∧ (EnhancedBackend.get_calorie_targets t "improve_endurance").calories = t + 100
    ∧ (EnhancedBackend.get_calorie_targets t "general_fitness").calories = t
    ∧ (EnhancedBackend.get_calorie_targets t "Gain Weight").calories = t
    ∧ (EnhancedBackend.get_calorie_targets t "lose_weight").description ≠ "" := by
  refine ⟨rfl, rfl, rfl, rfl, rfl, rfl, rfl, ?_, ?_, rfl, rfl, rfl, rfl, rfl, rfl, ?_⟩
  · show "To lose weight safely, aim for " ++ toString (tdee - 500) ++
      " calories daily. This creates a 500-calorie deficit for ~0.5kg weekly loss." ≠ ""
    exact strNeEmpty3 _ _ _ (by decide)
  · show "To maintain your weight, aim for " ++ toString tdee ++
      " calories daily. Focus on balanced nutrition." ≠ ""
    exact strNeEmpty3 _ _ _ (by decide)
  · show "Moderate deficit for sustainable weight loss" ≠ ""
    decide

/-! ### Claim C6 -/

/-- C6: if the generation call raises any exception, `get_health_response`
of `clean_rag_system.py` returns the keyword fallback, which is a non-empty
string in every branch; both that fallback and the one of `rag_system.py`
interpolate the user's name whenever the supplied profile contains one. -/
theorem C6_fallback_guarantee {E : Type} (e : E) (q : String)
    (op : Option CleanRagSystem.RProfile) :
    CleanRagSystem.get_health_response (Except.error e) q op =
      CleanRagSystem.get_fallback_response q op
    ∧ CleanRagSystem.get_fallback_response q op ≠ ""
    ∧ RagSystem.get_fallback_response q op ≠ ""
    ∧ (∀ p n, op = some p → p.name = some n →
        (∃ pre post, CleanRagSystem.get_fallback_response q op = pre ++ n ++ post)
        ∧ (∃ pre post, RagSystem.get_fallback_response q op = pre ++ n ++ post)) := by
  refine ⟨rfl, ?_, ?_, ?_⟩
  · simp only [CleanRagSystem.get_fallback_response]
    split_ifs <;> exact strNeEmpty3 _ _ _ (by decide)
  · simp only [RagSystem.get_fallback_response]
    split_ifs <;> exact strNeEmpty3 _ _ _ (by decide)
  · intro p n hop hname
    subst hop
    have hn : CleanRagSystem.profileName (some p) = n := by
      simp [CleanRagSystem.profileName, hname]
    constructor
    · simp only [CleanRagSystem.get_fallback_response, hn]
      split_ifs <;> exact ⟨_, _, rfl⟩
    · simp only [RagSystem.get_fallback_response, hn]
      split_ifs <;> exact ⟨_, _, rfl⟩

/-- C6 witness: the guarantee applied to the query "hello" with the profile
name "Sam" and a unit exception. -/
theorem C6_fallback_guarantee_witness :
    CleanRagSystem.get_fallback_response "hello" (some ⟨some "Sam"⟩) ≠ ""
    ∧ (∃ pre post, CleanRagSystem.get_fallback_response "hello" (some ⟨some "Sam"⟩) =
        pre ++ "Sam" ++ post)
    ∧ (∃ pre post, RagSystem.get_fallback_response "hello" (some ⟨some "Sam"⟩) =
        pre ++ "Sam" ++ post) :=
  ⟨(C6_fallback_guarantee () "hello" (some ⟨some "Sam"⟩)).2.1,
   ((C6_fallback_guarantee () "hello" (some ⟨some "Sam"⟩)).2.2.2 ⟨some "Sam"⟩ "Sam" rfl rfl).1,
   ((C6_fallback_guarantee () "hello" (some ⟨some "Sam"⟩)).2.2.2 ⟨some "Sam"⟩ "Sam" rfl rfl).2⟩

/-! ### Claim C7 -/

/-- The retrieval loop keeps exactly the documents whose score exceeds 0.3,
in order. -/
theorem search_relevant_docs_eq_filter (results : List (EnhancedBackend.HealthDocument × ℚ)) :
    EnhancedBackend.search_relevant_docs results =
      (results.filter (fun ds => ds.2 > 0.3)).map Prod.fst := by
  suffices h : ∀ acc : List EnhancedBackend.HealthDocument,
      results.foldl (fun acc ds => if ds.2 > 0.3 then acc ++ [ds.1] else acc) acc =
        acc ++ (results.filter (fun ds => ds.2 > 0.3)).map Prod.fst by
    simpa [EnhancedBackend.search_relevant_docs] using h []
  induction results with
  | nil => intro acc; simp
  | cons d tl ih =>
    intro acc
    by_cases hd : d.2 > 0.3
    · rw [List.foldl_cons, if_pos hd, ih, List.filter_cons_of_pos (by simpa using hd)]
      simp
    · rw [List.foldl_cons, if_neg hd, ih, List.filter_cons_of_neg (by simpa using hd)]

/-- C7 (counterexample): the claim fails as stated.  With every similarity
score below the 0.3 cutoff (so retrieval returns no chunks), a present API
key and a successful generation call, `generate_response` still returns the
generated text rather than routing to the keyword-matched fallback. -/
theorem C7_low_scores_still_generate_counterexample :
    ((0.2 : ℚ) < 0.3 ∧ (0.1 : ℚ) < 0.3)
    ∧ EnhancedBackend.search_relevant_docs
        [(⟨"t1", "c1"⟩, 0.2), (⟨"t2", "c2"⟩, 0.1)] = []
    ∧ EnhancedBackend.generate_response true (Except.ok "GEN" : Except Unit String) "hello" none
        [(⟨"t1", "c1"⟩, 0.2), (⟨"t2", "c2"⟩, 0.1)] = "GEN"
    ∧ "GEN" ≠ EnhancedBackend.generate_fallback_response "hello" none [] := by
  have hsearch : EnhancedBackend.search_relevant_docs
      [((⟨"t1", "c1"⟩ : EnhancedBackend.HealthDocument), (0.2 : ℚ)), (⟨"t2", "c2"⟩, 0.1)] = [] := by
    unfold EnhancedBackend.search_relevant_docs
    simp only [List.foldl_cons, List.foldl_nil]
    rw [if_neg (by norm_num), if_neg (by norm_num)]
  refine ⟨⟨by norm_num, by norm_num⟩, hsearch, ?_, ?_⟩
  · rfl
  · decide

/-- C7 (amended): the 0.3 cutoff only filters which retrieved chunks are
kept (a chunk survives iff its score is strictly above 0.3); it does not
route the request.  `generate_response` proceeds to prompt assembly and
generation whenever the API key is set, even with no surviving chunks, and
the keyword-matched fallback runs exactly when the API key is absent or the
generation call raises. -/
theorem C7_threshold_gate {E : Type} (e : E) (gen : Except E String)
    (results : List (EnhancedBackend.HealthDocument × ℚ)) (q s : String)
    (op : Option EnhancedBackend.EProfile) :
    EnhancedBackend.search_relevant_docs results =
      (results.filter (fun ds => ds.2 > 0.3)).map Prod.fst
    ∧ EnhancedBackend.generate_response false gen q op results =
        EnhancedBackend.generate_fallback_response q op
          (EnhancedBackend.search_relevant_docs results)
    ∧ EnhancedBackend.generate_response true (Except.error e) q op results =
        EnhancedBackend.generate_fallback_response q op
          (EnhancedBackend.search_relevant_docs results)
    ∧ EnhancedBackend.generate_response true (Except.ok s : Except E String) q op results =
        pyStrip s :=
  ⟨search_relevant_docs_eq_filter results, rfl, rfl, rfl⟩

/-! ### Claim C10 -/

/-- C10: when the user id is unknown or the stored profile has no (truthy)
TDEE, the `/api/set_goal` handler returns normally — no `NameError` from the
unassigned local `target_calories`, because the conditional expression
short-circuits to `None` — with a null `target_calories` in the response,
and the users store is left unchanged. -/
theorem C10_set_goal_falsy_tdee_safe (users : BodybaeBackend.Users)
    (user_id : Option String) (goal : String) (tw : ℤ)
    (hfalsy : BodybaeBackend.lookupTdee users user_id = none
      ∨ BodybaeBackend.lookupTdee users user_id = some 0) :
    ∃ r : BodybaeBackend.SetGoalResponse,
      BodybaeBackend.set_goal users user_id goal tw = Except.ok (r, users)
      ∧ r.target_calories = none := by
  have ht : BodybaeBackend.pyTruthyInt (BodybaeBackend.lookupTdee users user_id) = false := by
    rcases hfalsy with h | h <;> rw [h] <;> rfl
  refine ⟨{ goal := goal, target_weeks := tw,
            message := BodybaeBackend.goalAdvice goal tw ++ "",
            target_calories := none }, ?_, rfl⟩
  simp only [BodybaeBackend.set_goal]
  rw [ht]
  rfl

/-- C10 witness: a store holding one user whose record has no TDEE; setting
a goal for that user succeeds with a null `target_calories` and leaves the
store unchanged. -/
theorem C10_set_goal_falsy_tdee_safe_witness :
    ∃ r : BodybaeBackend.SetGoalResponse,
      BodybaeBackend.set_goal [("user_1", ⟨none, none, none⟩)] (some "user_1")
          "Lose Weight" 12 =
        Except.ok (r, [("user_1", ⟨none, none, none⟩)])
      ∧ r.target_calories = none :=
  C10_set_goal_falsy_tdee_safe [("user_1", ⟨none, none, none⟩)] (some "user_1")
    "Lose Weight" 12 (Or.inl rfl)
